import Mathlib

/-!
Verification of the text-tracking core of the `textfinder` Figma plugin
(`src/code.ts`): text discovery, attribute formatting, row extraction, the
snapshot/diff engine, and the selection-change state machine.  Host-API
calls (`figma.getNodeById`, `figma.getStyleById`, the current selection,
parent links) are passed in explicitly; every definition mirrors the
corresponding source function.
-/

namespace TextFinder

/-- `TextNode["fontSize"]`: the host's mixed sentinel or a number. -/
inductive FontSizeV where
  | mixed
  | num (q : ℚ)
deriving DecidableEq

/-- A concrete font name `{family, style}`. -/
structure FontName where
  family : String
  style : String
deriving DecidableEq

/-- `TextNode["fontName"]`: the mixed sentinel or a font name. -/
inductive FontNameV where
  | mixed
  | val (f : FontName)
deriving DecidableEq

/-- `TextNode["letterSpacing"]`: mixed, or a value with unit PERCENT / PIXELS. -/
inductive LetterSpacingV where
  | mixed
  | percent (v : ℚ)
  | pixels (v : ℚ)
deriving DecidableEq

/-- `TextNode["lineHeight"]`: mixed, AUTO, or a value with unit PERCENT / PIXELS. -/
inductive LineHeightV where
  | mixed
  | auto
  | percent (v : ℚ)
  | pixels (v : ℚ)
deriving DecidableEq

/-- JavaScript `Math.round`: round half toward positive infinity. -/
def mathRound (q : ℚ) : ℤ := ⌊q + 1 / 2⌋

/-- `x.toFixed(2)` as an integer count of hundredths. -/
def toFixed2 (q : ℚ) : ℤ := ⌊q * 100 + 1 / 2⌋

/-- Render a count of hundredths the way JavaScript prints the number
`scaled / 100` (at most two decimals, insignificant trailing zeros
dropped): this models the `parseFloat(x.toFixed(2))` rendering used by the
spacing and line-height formatters. -/
def renderHundredths (scaled : ℤ) : String :=
  let sign := if scaled < 0 then "-" else ""
  let a := scaled.natAbs
  let whole := a / 100
  let frac := a % 100
  if frac = 0 then sign ++ toString whole
  else if frac % 10 = 0 then sign ++ toString whole ++ "." ++ toString (frac / 10)
  else sign ++ toString whole ++ "." ++ (if frac < 10 then "0" else "") ++ toString frac

/-- `formatFontSize` from src/code.ts: mixed → `"Mixed"`, otherwise the
template string of `Math.round(fontSize)`. -/
def formatFontSize : FontSizeV → String
  | .mixed => "Mixed"
  | .num q => toString (mathRound q)

/-- `formatFontFamily` from src/code.ts. -/
def formatFontFamily : FontNameV → String
  | .mixed => "Mixed"
  | .val f => f.family ++ " " ++ f.style

/-- `formatLetterSpacing` from src/code.ts. -/
def formatLetterSpacing : LetterSpacingV → String
  | .mixed => "Mixed"
  | .percent v => renderHundredths (toFixed2 v) ++ "%"
  | .pixels v => renderHundredths (toFixed2 v) ++ "px"

/-- `formatLineHeight` from src/code.ts. -/
def formatLineHeight : LineHeightV → String
  | .mixed => "Mixed"
  | .auto => "Auto"
  | .percent v => renderHundredths (toFixed2 v) ++ "%"
  | .pixels v => renderHundredths (toFixed2 v) ++ "px"

/-- `TextNode["textStyleId"]`: the mixed sentinel or a style-id string (the
empty string is the absent/unlinked id; `!textStyleId` in the source is
exactly emptiness for a string). -/
inductive StyleIdV where
  | mixed
  | id (s : String)
deriving DecidableEq

/-- A host style object, as far as the core reads it. -/
structure Style where
  name : String
deriving DecidableEq

/-- Outcome of a `figma.getStyleById` call: a style or `null`, or a thrown
error (caught by the source's try/catch). -/
inductive LookupResult where
  | ok (style : Option Style)
  | err
deriving DecidableEq

/-- `resolveStyleName` from src/code.ts, with `figma.getStyleById`
abstracted as `lookup`.  The source returns `{s.name, unlinked:false}`
only when `s && s.name` is truthy (non-null style with non-empty name);
every other path, including a thrown lookup, falls through to
`{"🔴 Unlinked", unlinked:true}`. -/
def resolveStyleName (lookup : String → LookupResult) : StyleIdV → String × Bool
  | .mixed => ("🟡 Mixed", false)
  | .id s =>
    if s = "" then ("🔴 Unlinked", true)
    else
      match lookup s with
      | .ok (some st) =>
        if st.name = "" then ("🔴 Unlinked", true) else (st.name, false)
      | .ok none => ("🔴 Unlinked", true)
      | .err => ("🔴 Unlinked", true)

/-- The text-relevant data of one scene node.  `atX`/`atY` are the
translation components `absoluteTransform[0][2]` and `[1][2]` used by the
visual sort. -/
structure NodeData where
  id : String
  visible : Bool
  ntype : String
  atX : ℤ
  atY : ℤ
  characters : String
  textStyleId : StyleIdV
  fontSize : FontSizeV
  fontName : FontNameV
  letterSpacing : LetterSpacingV
  lineHeight : LineHeightV
deriving DecidableEq

/-- A scene node: its data plus, when the node exposes a `children`
collection (`"children" in node`), that collection. -/
inductive SceneNode where
  | node (data : NodeData) (children : Option (List SceneNode))

/-- The node's data record. -/
def SceneNode.data : SceneNode → NodeData
  | .node d _ => d

/-- The node's `children` collection, when exposed. -/
def SceneNode.children : SceneNode → Option (List SceneNode)
  | .node _ c => c

mutual
/-- `findVisibleTextNodes` from src/code.ts: prune an invisible branch
whole, return a TEXT node as a singleton leaf, otherwise recurse into the
children collection when there is one. -/
def findVisibleTextNodes : SceneNode → List SceneNode
  | .node d cs =>
    if !d.visible then []
    else if d.ntype = "TEXT" then [.node d cs]
    else
      match cs with
      | some children => findVisibleTextNodesList children
      | none => []

/-- `children.flatMap(findVisibleTextNodes)` from src/code.ts. -/
def findVisibleTextNodesList : List SceneNode → List SceneNode
  | [] => []
  | c :: cs => findVisibleTextNodes c ++ findVisibleTextNodesList cs
end

/-- A row record (`TextRowData` in src/code.ts). -/
structure TextRowData where
  nodeId : String
  textContent : String
  styleName : String
  fontSize : String
  fontFamily : String
  letterSpacing : String
  lineHeight : String
  isUnlinked : Bool
  isModified : Bool
deriving DecidableEq

/-- `extractData` from src/code.ts (the style lookup passed explicitly). -/
def extractData (lookup : String → LookupResult) (n : SceneNode) : TextRowData :=
  let styleInfo := resolveStyleName lookup n.data.textStyleId
  { nodeId := n.data.id
    textContent := n.data.characters
    styleName := styleInfo.1
    fontSize := formatFontSize n.data.fontSize
    fontFamily := formatFontFamily n.data.fontName
    letterSpacing := formatLetterSpacing n.data.letterSpacing
    lineHeight := formatLineHeight n.data.lineHeight
    isUnlinked := styleInfo.2
    isModified := false }

/-- The record serialized by `serializeRow`
(`JSON.stringify({t, s, fs, ff, ls, lh})`).  `JSON.stringify` of this
fixed-shape, fixed-key-order record is injective in the six field values,
so string equality of the serializations coincides with equality of this
record; the snapshot map therefore stores this record directly. -/
structure Fingerprint where
  t : String
  s : String
  fs : String
  ff : String
  ls : String
  lh : String
deriving DecidableEq

/-- `serializeRow` from src/code.ts. -/
def serializeRow (r : TextRowData) : Fingerprint :=
  { t := r.textContent, s := r.styleName, fs := r.fontSize,
    ff := r.fontFamily, ls := r.letterSpacing, lh := r.lineHeight }

/-- The `originalDataMap` (`Map<string, string>`) as its list of entries
in insertion order. -/
abbrev Snapshot := List (String × Fingerprint)

/-- `Map.prototype.get`: value of the first (and, for maps built by
`set`, only) entry with the given key. -/
def Snapshot.get? : Snapshot → String → Option Fingerprint
  | [], _ => none
  | p :: ps, k => if p.1 = k then some p.2 else Snapshot.get? ps k

/-- `Map.prototype.has`: a key is present iff `get` finds it. -/
def Snapshot.hasKey (m : Snapshot) (k : String) : Bool :=
  (m.get? k).isSome

/-- `Map.prototype.set`: update the first entry with this key in place,
otherwise append a new entry. -/
def Snapshot.set : Snapshot → String → Fingerprint → Snapshot
  | [], k, v => [(k, v)]
  | p :: ps, k, v => if p.1 = k then (k, v) :: ps else p :: Snapshot.set ps k v

/-- `takeSnapshot` from src/code.ts: `originalDataMap.clear()` then
`set(r.nodeId, serializeRow(r))` for each row in order. -/
def takeSnapshot (rows : List TextRowData) : Snapshot :=
  rows.foldl (fun m r => m.set r.nodeId (serializeRow r)) []

/-- `markModified` from src/code.ts:
`isModified = has(nodeId) && get(nodeId) !== serializeRow(r)`. -/
def markModified (snap : Snapshot) (rows : List TextRowData) : List TextRowData :=
  rows.map fun r =>
    { r with isModified :=
        snap.hasKey r.nodeId && (snap.get? r.nodeId != some (serializeRow r)) }

/-- The comparator of `scanFrame`'s sort, as a boolean ≤-relation:
ascending `absoluteTransform[1][2]` (Y), then, for equal Y, ascending
`absoluteTransform[0][2]` (X).  The source's comparator returns `ay - by`
when the Y components differ and `ax - bx` otherwise. -/
def visualLe (a b : SceneNode) : Bool :=
  decide (a.data.atY < b.data.atY) ||
    (decide (a.data.atY = b.data.atY) && decide (a.data.atX ≤ b.data.atX))

/-- `textNodes.sort(comparator)`: a stable sort of the collected text
nodes by the visual order. -/
def sortVisual (ts : List SceneNode) : List SceneNode :=
  ts.mergeSort visualLe

/-- Outbound `figma.ui.postMessage` messages of the core. -/
inductive OutMsg where
  | empty
  | noText
  | result (data : List TextRowData)
  | syncSelection (ids : List String)
deriving DecidableEq

/-- The host document as the handlers read it: the current selection,
`figma.getNodeById`, the parent link of each node (for `isChildOf`) with a
bound on parent-chain length, and `figma.getStyleById`. -/
structure Doc where
  selection : List SceneNode
  getNodeById : String → Option SceneNode
  parentOf : String → Option String
  depth : Nat
  styleById : String → LookupResult

/-- The `while (current)` parent-chain walk of `isChildOf`, bounded by
`fuel` (host documents are finite trees, so the source loop terminates). -/
def chainHasAncestor (parentOf : String → Option String) :
    Nat → Option String → String → Bool
  | 0, _, _ => false
  | _ + 1, none, _ => false
  | fuel + 1, some cur, anc =>
    if cur = anc then true else chainHasAncestor parentOf fuel (parentOf cur) anc

/-- `isChildOf` from src/code.ts: walk the `parent` links of the node,
starting at its parent, looking for `ancestorId`. -/
def isChildOf (doc : Doc) (nodeId : String) (ancestorId : String) : Bool :=
  chainHasAncestor doc.parentOf doc.depth (doc.parentOf nodeId) ancestorId

/-- `CONTAINER_TYPES` from src/code.ts. -/
def CONTAINER_TYPES : List String :=
  ["FRAME", "COMPONENT", "COMPONENT_SET", "INSTANCE", "GROUP"]

/-- `scanFrame` from src/code.ts, returning the snapshot after the call
together with the single message posted to the UI (the source mutates
`originalDataMap` only through `takeSnapshot`). -/
def scanFrame (doc : Doc) (frameId : String) (snap : Snapshot)
    (isNewContext : Bool) : Snapshot × OutMsg :=
  match doc.getNodeById frameId with
  | none => (snap, .noText)
  | some frameNode =>
    match frameNode.children with
    | none => (snap, .noText)
    | some cs =>
      let textNodes := sortVisual (findVisibleTextNodesList cs)
      if textNodes.length = 0 then (snap, .noText)
      else
        let rows := textNodes.map (extractData doc.styleById)
        if isNewContext then
          let rows2 := rows.map (fun r => { r with isModified := false })
          (takeSnapshot rows2, .result rows2)
        else
          (snap, .result (markModified snap rows))

/-- The mutable session state of src/code.ts: `lastActiveFrameId`,
`isNavigating` (the navigation guard), and `originalDataMap`. -/
structure State where
  lastActiveFrameId : Option String
  isNavigating : Bool
  snapshot : Snapshot
deriving DecidableEq

/-- The `figma.on("selectionchange")` handler from src/code.ts: guard
consumption, then Case A (container selected → reset-scan), Case B
(children of the active frame selected → sync highlight), Case C
(unrelated selection → strict reset to no context). -/
def onSelectionChange (doc : Doc) (st : State) : State × List OutMsg :=
  if st.isNavigating then ({ st with isNavigating := false }, [])
  else
    let selection := doc.selection
    let containerOpt :=
      if selection.length > 0 then
        selection.find? (fun n => CONTAINER_TYPES.contains n.data.ntype)
      else none
    match containerOpt with
    | some container =>
      let scanned := scanFrame doc container.data.id st.snapshot true
      ({ st with lastActiveFrameId := some container.data.id,
                 snapshot := scanned.1 }, [scanned.2])
    | none =>
      match st.lastActiveFrameId with
      | some activeId =>
        if selection.length > 0 then
          let childNodes := selection.filter (fun n => isChildOf doc n.data.id activeId)
          if childNodes.length > 0 then
            (st, [.syncSelection (childNodes.map (fun n => n.data.id))])
          else ({ st with lastActiveFrameId := none }, [.empty])
        else ({ st with lastActiveFrameId := none }, [.empty])
      | none => ({ st with lastActiveFrameId := none }, [.empty])

/-- The `figma.on("documentchange")` handler from src/code.ts: if a frame
is active and still resolves, re-scan it (diff, not reset). -/
def onDocumentChange (doc : Doc) (st : State) : State × List OutMsg :=
  match st.lastActiveFrameId with
  | some frameId =>
    match doc.getNodeById frameId with
    | some _ =>
      let scanned := scanFrame doc frameId st.snapshot false
      ({ st with snapshot := scanned.1 }, [scanned.2])
    | none => (st, [])
  | none => (st, [])

/-- Host-side effects requested by the inbound-message handler. -/
inductive Effect where
  | setSelection (ids : List String)
  | scrollZoom (ids : List String)
  | notifyWarn
deriving DecidableEq

/-- The `select-node` branch of `figma.ui.onmessage` from src/code.ts:
when the id resolves to a TEXT node, set the navigation guard and change
the host selection; otherwise only notify a warning. -/
def onMsgSelectNode (doc : Doc) (st : State) (nodeId : String) :
    State × List Effect :=
  match doc.getNodeById nodeId with
  | some n =>
    if n.data.ntype = "TEXT" then
      ({ st with isNavigating := true },
       [.setSelection [n.data.id], .scrollZoom [n.data.id]])
    else (st, [.notifyWarn])
  | none => (st, [.notifyWarn])

/-! ### Helper lemmas -/

/-- The diff flag computed by `markModified` is true exactly when the
snapshot holds a fingerprint for the row's id that differs from the row's
current fingerprint. -/
lemma modified_flag_iff (snap : Snapshot) (r : TextRowData) :
    (snap.hasKey r.nodeId && (snap.get? r.nodeId != some (serializeRow r))) = true ↔
      ∃ fp, snap.get? r.nodeId = some fp ∧ fp ≠ serializeRow r := by
  unfold Snapshot.hasKey
  cases h : snap.get? r.nodeId with
  | none => simp [h]
  | some fp => simp [h]

/-- `serializeRow` reads only the six display fields. -/
lemma serializeRow_eq_iff (r₁ r₂ : TextRowData) :
    serializeRow r₁ = serializeRow r₂ ↔
      (r₁.textContent = r₂.textContent ∧ r₁.styleName = r₂.styleName ∧
       r₁.fontSize = r₂.fontSize ∧ r₁.fontFamily = r₂.fontFamily ∧
       r₁.letterSpacing = r₂.letterSpacing ∧ r₁.lineHeight = r₂.lineHeight) := by
  simp [serializeRow, Fingerprint.mk.injEq]

/-- A re-scan (`isNewContext = false`) returns the snapshot unchanged on
every path through `scanFrame`. -/
lemma scanFrame_false_fst (doc : Doc) (frameId : String) (snap : Snapshot) :
    (scanFrame doc frameId snap false).1 = snap := by
  rcases h1 : doc.getNodeById frameId with _ | frameNode
  · simp [scanFrame, h1]
  · rcases h2 : frameNode.children with _ | cs
    · simp [scanFrame, h1, h2]
    · by_cases h3 : (sortVisual (findVisibleTextNodesList cs)).length = 0 <;>
        simp [scanFrame, h1, h2, h3]

/-! ### C1 -/

/-- C1: `markModified` preserves length and, per row, sets `isModified`
exactly when the snapshot has the row's `nodeId` with a fingerprint that
differs from the row's current fingerprint (a `nodeId` absent from the
snapshot yields `isModified = false`), and fingerprint equality is
determined by exactly the six display fields. -/
theorem markModified_flag_spec (snap : Snapshot) (rows : List TextRowData) :
    (markModified snap rows).length = rows.length ∧
    (∀ (i : Nat) (r : TextRowData), rows[i]? = some r →
      ∃ q, (markModified snap rows)[i]? = some q ∧
        (q.isModified = true ↔
          ∃ fp, snap.get? r.nodeId = some fp ∧ fp ≠ serializeRow r) ∧
        (snap.get? r.nodeId = none → q.isModified = false)) ∧
    (∀ r₁ r₂ : TextRowData, serializeRow r₁ = serializeRow r₂ ↔
      (r₁.textContent = r₂.textContent ∧ r₁.styleName = r₂.styleName ∧
       r₁.fontSize = r₂.fontSize ∧ r₁.fontFamily = r₂.fontFamily ∧
       r₁.letterSpacing = r₂.letterSpacing ∧ r₁.lineHeight = r₂.lineHeight)) := by
  refine ⟨by simp [markModified], ?_, serializeRow_eq_iff⟩
  intro i r hr
  refine ⟨{ r with isModified := snap.hasKey r.nodeId && (snap.get? r.nodeId != some (serializeRow r)) }, ?_, modified_flag_iff snap r, ?_⟩
  · simp [markModified, List.getElem?_map, hr]
  · intro hnone
    simp [Snapshot.hasKey, hnone]

def c1Row : TextRowData :=
  { nodeId := "n1", textContent := "Hello!", styleName := "Body",
    fontSize := "14", fontFamily := "Inter Regular", letterSpacing := "0px",
    lineHeight := "Auto", isUnlinked := false, isModified := false }

def c1Fp : Fingerprint :=
  { t := "Hello", s := "Body", fs := "14", ff := "Inter Regular",
    ls := "0px", lh := "Auto" }

def c1Snap : Snapshot := [("n1", c1Fp)]

/-- Witness for C1 at a one-row list whose text changed since snapshot. -/
theorem markModified_flag_spec_witness :
    ∃ q, (markModified c1Snap [c1Row])[0]? = some q ∧
      (q.isModified = true ↔
        ∃ fp, Snapshot.get? c1Snap c1Row.nodeId = some fp ∧ fp ≠ serializeRow c1Row) ∧
      (Snapshot.get? c1Snap c1Row.nodeId = none → q.isModified = false) :=
  (markModified_flag_spec c1Snap [c1Row]).2.1 0 c1Row (by decide)

/-! ### C9 -/

/-- C9: diffing is pure and idempotent — applying `markModified` twice
against the same snapshot gives exactly the rows of a single application
(`serializeRow` ignores `isModified`, so the recomputed flags agree). -/
theorem markModified_idempotent (snap : Snapshot) (rows : List TextRowData) :
    markModified snap (markModified snap rows) = markModified snap rows := by
  unfold markModified
  rw [List.map_map]
  exact List.map_congr_left fun r _ => rfl

/-! ### C7 -/

/-- C7 counterexample: the formatter renders the font size 14.6 as "15"
(`Math.round(14.6) = 15`), not "14" as the claim states. -/
theorem formatFontSize_14_6_counterexample :
    formatFontSize (.num (73 / 5)) = "15" ∧ ("15" : String) ≠ "14" := by
  constructor
  · with_unfolding_all decide
  · decide

/-- C7 amended: a non-mixed numeric size renders as the decimal digits of
`Math.round` of the value (round half up to the nearest integer); in
particular 14.6 renders as "15" and 14.4 as "14"; mixed renders as
"Mixed". -/
theorem formatFontSize_round_spec :
    formatFontSize .mixed = "Mixed" ∧
    (∀ q : ℚ, formatFontSize (.num q) = toString (mathRound q)) ∧
    formatFontSize (.num (73 / 5)) = "15" ∧
    formatFontSize (.num (72 / 5)) = "14" := by
  refine ⟨rfl, fun q => rfl, ?_, ?_⟩ <;> with_unfolding_all decide

/-! ### C6 -/

/-- C6: style resolution is total and degrades instead of failing — mixed
gives `("🟡 Mixed", false)`; an empty id, a lookup returning null, and a
throwing lookup all give `("🔴 Unlinked", true)`; and every input yields
one of the documented outcomes (no error escapes the resolver). -/
theorem resolveStyleName_total_degrade :
    (∀ lookup, resolveStyleName lookup .mixed = ("🟡 Mixed", false)) ∧
    (∀ lookup, resolveStyleName lookup (.id "") = ("🔴 Unlinked", true)) ∧
    (∀ lookup s, lookup s = .err →
      resolveStyleName lookup (.id s) = ("🔴 Unlinked", true)) ∧
    (∀ lookup s, lookup s = .ok none →
      resolveStyleName lookup (.id s) = ("🔴 Unlinked", true)) ∧
    (∀ lookup sid, resolveStyleName lookup sid = ("🟡 Mixed", false) ∨
      resolveStyleName lookup sid = ("🔴 Unlinked", true) ∨
      ∃ nm : String, nm ≠ "" ∧ resolveStyleName lookup sid = (nm, false)) := by
  refine ⟨fun l => rfl, fun l => by simp [resolveStyleName], ?_, ?_, ?_⟩
  · intro l s h
    by_cases hs : s = "" <;> simp [resolveStyleName, hs, h]
  · intro l s h
    by_cases hs : s = "" <;> simp [resolveStyleName, hs, h]
  · intro l sid
    cases sid with
    | mixed => exact Or.inl rfl
    | id s =>
      by_cases hs : s = ""
      · exact Or.inr (Or.inl (by simp [resolveStyleName, hs]))
      · cases hl : l s with
        | err => exact Or.inr (Or.inl (by simp [resolveStyleName, hs, hl]))
        | ok os =>
          cases os with
          | none => exact Or.inr (Or.inl (by simp [resolveStyleName, hs, hl]))
          | some st =>
            by_cases hn : st.name = ""
            · exact Or.inr (Or.inl (by simp [resolveStyleName, hs, hl, hn]))
            · exact Or.inr (Or.inr ⟨st.name, hn, by simp [resolveStyleName, hs, hl, hn]⟩)

def c6ErrLookup : String → LookupResult := fun _ => .err

/-- Witness for C6: a throwing lookup degrades to the unlinked state. -/
theorem resolveStyleName_total_degrade_witness :
    c6ErrLookup "S:123" = .err ∧
    resolveStyleName c6ErrLookup (.id "S:123") = ("🔴 Unlinked", true) :=
  ⟨rfl, resolveStyleName_total_degrade.2.2.1 c6ErrLookup "S:123" rfl⟩

/-! ### C10 -/

/-- C10: a style id that resolves to a style whose name is empty yields
`("🔴 Unlinked", true)`, the same observable result as an unresolvable
id. -/
theorem emptyName_style_unlinked (lookup : String → LookupResult) (s : String)
    (st : Style) (hs : s ≠ "") (hl : lookup s = .ok (some st)) (hn : st.name = "") :
    resolveStyleName lookup (.id s) = ("🔴 Unlinked", true) ∧
    resolveStyleName lookup (.id s) = resolveStyleName (fun _ => .err) (.id s) := by
  have h1 : resolveStyleName lookup (.id s) = ("🔴 Unlinked", true) := by
    simp [resolveStyleName, hs, hl, hn]
  have h2 : resolveStyleName (fun _ => .err) (.id s) = ("🔴 Unlinked", true) := by
    simp [resolveStyleName, hs]
  exact ⟨h1, h1.trans h2.symm⟩

def c10Lookup : String → LookupResult := fun _ => .ok (some { name := "" })

/-- Witness for C10 at a lookup that succeeds with an empty-named style. -/
theorem emptyName_style_unlinked_witness :
    ("S:x" : String) ≠ "" ∧ c10Lookup "S:x" = .ok (some { name := "" }) ∧
    resolveStyleName c10Lookup (.id "S:x") = ("🔴 Unlinked", true) :=
  ⟨by decide, rfl,
   (emptyName_style_unlinked c10Lookup "S:x" { name := "" } (by decide) rfl rfl).1⟩

/-! ### C4 -/

/-- C4: a re-scan never touches the baseline — `markModified` returns rows
equal to the input on every field except `isModified` (same length, same
order), the diff branch of `scanFrame` returns the snapshot unchanged, and
the `documentchange` handler therefore leaves the snapshot as it was. -/
theorem rescan_preserves_rows_and_snapshot (snap : Snapshot)
    (rows : List TextRowData) (doc : Doc) (frameId : String) (st : State) :
    (markModified snap rows).length = rows.length ∧
    (markModified snap rows).map (fun r => { r with isModified := false }) =
      rows.map (fun r => { r with isModified := false }) ∧
    (∀ (i : Nat) (r q : TextRowData), rows[i]? = some r →
      (markModified snap rows)[i]? = some q →
      q.nodeId = r.nodeId ∧ q.textContent = r.textContent ∧
      q.styleName = r.styleName ∧ q.fontSize = r.fontSize ∧
      q.fontFamily = r.fontFamily ∧ q.letterSpacing = r.letterSpacing ∧
      q.lineHeight = r.lineHeight ∧ q.isUnlinked = r.isUnlinked) ∧
    (scanFrame doc frameId snap false).1 = snap ∧
    (onDocumentChange doc st).1.snapshot = st.snapshot := by
  refine ⟨by simp [markModified], ?_, ?_, scanFrame_false_fst doc frameId snap, ?_⟩
  · unfold markModified
    rw [List.map_map]
    exact List.map_congr_left fun r _ => rfl
  · intro i r q hr hq
    simp [markModified, List.getElem?_map, hr] at hq
    subst hq
    exact ⟨rfl, rfl, rfl, rfl, rfl, rfl, rfl, rfl⟩
  · unfold onDocumentChange
    rcases h1 : st.lastActiveFrameId with _ | frameId2
    · simp [h1]
    · rcases h2 : doc.getNodeById frameId2 with _ | fn
      · simp [h1, h2]
      · simp [h1, h2, scanFrame_false_fst]

def c4Row : TextRowData :=
  { nodeId := "n2", textContent := "World", styleName := "Title",
    fontSize := "20", fontFamily := "Inter Bold", letterSpacing := "1px",
    lineHeight := "120%", isUnlinked := false, isModified := true }

def c4Snap : Snapshot := []

def c4Doc : Doc :=
  { selection := [], getNodeById := fun _ => none, parentOf := fun _ => none,
    depth := 0, styleById := fun _ => .err }

def c4State : State :=
  { lastActiveFrameId := none, isNavigating := false, snapshot := c4Snap }

/-- Witness for C4 at a one-row list and the empty snapshot. -/
theorem rescan_preserves_rows_and_snapshot_witness :
    c4Row.nodeId = "n2" ∧
    (∀ q : TextRowData, (markModified c4Snap [c4Row])[0]? = some q →
      q.nodeId = c4Row.nodeId ∧ q.textContent = c4Row.textContent ∧
      q.styleName = c4Row.styleName ∧ q.fontSize = c4Row.fontSize ∧
      q.fontFamily = c4Row.fontFamily ∧ q.letterSpacing = c4Row.letterSpacing ∧
      q.lineHeight = c4Row.lineHeight ∧ q.isUnlinked = c4Row.isUnlinked) ∧
    (scanFrame c4Doc "F" c4Snap false).1 = c4Snap :=
  ⟨rfl,
   fun q hq =>
     (rescan_preserves_rows_and_snapshot c4Snap [c4Row] c4Doc "F" c4State).2.2.1
       0 c4Row q (by decide) hq,
   (rescan_preserves_rows_and_snapshot c4Snap [c4Row] c4Doc "F" c4State).2.2.2.1⟩

/-! ### C5 -/

/-- A witness that `t` is reachable from `n` through visible nodes only:
either `n` itself is a visible TEXT node and `t = n`, or `n` is visible,
not TEXT, exposes children, and `t` is so reachable from one of them.
Every node on such a path — in particular every branch root above `t` —
is visible. -/
inductive VisPath : SceneNode → SceneNode → Prop where
  | here (n : SceneNode) :
      n.data.visible = true → n.data.ntype = "TEXT" → VisPath n n
  | there (n c t : SceneNode) (cs : List SceneNode) :
      n.data.visible = true → n.data.ntype ≠ "TEXT" →
      n.children = some cs → c ∈ cs → VisPath c t → VisPath n t

mutual
/-- Discovery output is sound: every reported node lies on an all-visible
path from the root. -/
theorem visPath_of_mem : ∀ (n t : SceneNode), t ∈ findVisibleTextNodes n → VisPath n t
  | .node d cs, t, ht => by
    rw [findVisibleTextNodes.eq_def] at ht
    by_cases hv : d.visible
    · by_cases htxt : d.ntype = "TEXT"
      · simp [hv, htxt] at ht
        subst ht
        exact VisPath.here _ (by simpa [SceneNode.data] using hv) (by simpa [SceneNode.data] using htxt)
      · rcases cs with _ | children
        · simp [hv, htxt] at ht
        · simp only [hv, htxt, Bool.not_true, if_neg, if_false, Bool.false_eq_true, not_false_eq_true, if_true] at ht
          have hlist := visPath_of_mem_list children t (by simpa [hv, htxt] using ht)
          obtain ⟨c, hc, hp⟩ := hlist
          exact VisPath.there _ c t children (by simpa [SceneNode.data] using hv)
            (by simpa [SceneNode.data] using htxt) rfl hc hp
    · simp [Bool.not_eq_true] at hv
      simp [hv] at ht

/-- List version of `visPath_of_mem`, for the children recursion. -/
theorem visPath_of_mem_list : ∀ (cs : List SceneNode) (t : SceneNode),
    t ∈ findVisibleTextNodesList cs → ∃ c ∈ cs, VisPath c t
  | [], t, ht => by rw [findVisibleTextNodesList.eq_def] at ht; simp at ht
  | c :: cs, t, ht => by
    rw [findVisibleTextNodesList.eq_def] at ht
    rcases List.mem_append.mp ht with h | h
    · exact ⟨c, List.mem_cons_self c cs, visPath_of_mem c t h⟩
    · obtain ⟨c2, hc2, hp⟩ := visPath_of_mem_list cs t h
      exact ⟨c2, List.mem_cons_of_mem c hc2, hp⟩
end

/-- C5: Discovery excludes every text leaf below an invisible branch root
(any reported node has an all-visible path from the scan root, and an
invisible root yields no output at all), and a visible TEXT node is
returned as the singleton leaf itself — never recursed into — whatever its
`children` field holds. -/
theorem discovery_visibility_pruning :
    (∀ n t, t ∈ findVisibleTextNodes n → VisPath n t) ∧
    (∀ n, n.data.visible = false → findVisibleTextNodes n = []) ∧
    (∀ n, n.data.visible = true → n.data.ntype = "TEXT" →
      findVisibleTextNodes n = [n]) := by
  refine ⟨visPath_of_mem, ?_, ?_⟩
  · rintro ⟨d, cs⟩ hv
    rw [findVisibleTextNodes.eq_def]
    simp [SceneNode.data] at hv
    simp [hv]
  · rintro ⟨d, cs⟩ hv htxt
    rw [findVisibleTextNodes.eq_def]
    simp [SceneNode.data] at hv htxt
    simp [hv, htxt]

def c5Data : NodeData :=
  { id := "t1", visible := true, ntype := "TEXT", atX := 0, atY := 0,
    characters := "Hi", textStyleId := .id "", fontSize := .num 12,
    fontName := .val { family := "Inter", style := "Regular" },
    letterSpacing := .pixels 0, lineHeight := .auto }

/-- A visible text leaf. -/
def c5Leaf : SceneNode := .node c5Data none

/-- An invisible frame containing the visible leaf. -/
def c5Hidden : SceneNode :=
  .node { c5Data with id := "g", ntype := "FRAME", visible := false } (some [c5Leaf])

/-- A visible TEXT node that nominally exposes children. -/
def c5TextWithKids : SceneNode :=
  .node { c5Data with id := "t2" } (some [c5Leaf])

/-- Witness for C5: the invisible branch yields nothing although its leaf
is visible, and a TEXT node with children is returned as itself. -/
theorem discovery_visibility_pruning_witness :
    findVisibleTextNodes c5Hidden = [] ∧
    findVisibleTextNodes c5TextWithKids = [c5TextWithKids] :=
  ⟨discovery_visibility_pruning.2.1 c5Hidden rfl,
   discovery_visibility_pruning.2.2 c5TextWithKids rfl rfl⟩

/-! ### C3 -/

/-- C3: while the navigation guard is set the `selectionchange` handler
only clears it — state otherwise untouched, no message posted; the handler
never leaves the guard set, so the next genuine event is processed
normally; and the guard is set by the `select-node` message handler when
its id resolves to a TEXT node. -/
theorem navigationGuard_consumed :
    (∀ doc st, st.isNavigating = true →
      onSelectionChange doc st = ({ st with isNavigating := false }, [])) ∧
    (∀ doc st, (onSelectionChange doc st).1.isNavigating = false) ∧
    (∀ doc st nodeId n, doc.getNodeById nodeId = some n →
      n.data.ntype = "TEXT" →
      (onMsgSelectNode doc st nodeId).1 = { st with isNavigating := true }) := by
  refine ⟨?_, ?_, ?_⟩
  · intro doc st h
    simp [onSelectionChange, h]
  · intro doc st
    cases hb : st.isNavigating with
    | true => simp [onSelectionChange, hb]
    | false =>
      unfold onSelectionChange
      simp only [hb, Bool.false_eq_true, if_false]
      split
      · rfl
      · split
        · split
          · split
            · exact hb
            · rfl
          · rfl
        · rfl
  · intro doc st nodeId n h1 h2
    simp [onMsgSelectNode, h1, h2]

def c3Doc : Doc :=
  { selection := [], getNodeById := fun _ => none, parentOf := fun _ => none,
    depth := 0, styleById := fun _ => .err }

def c3GuardState : State :=
  { lastActiveFrameId := some "A", isNavigating := true, snapshot := c1Snap }

def c3TextNode : SceneNode :=
  .node { c5Data with id := "t9" } none

def c3Doc2 : Doc :=
  { c3Doc with getNodeById := fun i => if i = "t9" then some c3TextNode else none }

def c3PlainState : State :=
  { lastActiveFrameId := none, isNavigating := false, snapshot := [] }

/-- Witness for C3: a guarded event only clears the guard, and a
`select-node` on a resolvable TEXT node sets it. -/
theorem navigationGuard_consumed_witness :
    onSelectionChange c3Doc c3GuardState = ({ c3GuardState with isNavigating := false }, []) ∧
    (onSelectionChange c3Doc c3GuardState).1.isNavigating = false ∧
    (onMsgSelectNode c3Doc2 c3PlainState "t9").1 = { c3PlainState with isNavigating := true } :=
  ⟨navigationGuard_consumed.1 c3Doc c3GuardState rfl,
   navigationGuard_consumed.2.1 c3Doc c3GuardState,
   navigationGuard_consumed.2.2 c3Doc2 c3PlainState "t9" c3TextNode (by simp [c3Doc2]) rfl⟩

/-! ### C2 -/

/-- `Map.set` semantics at the level of `get`. -/
lemma Snapshot.get?_set (m : Snapshot) (a k : String) (v : Fingerprint) :
    (m.set a v).get? k = if k = a then some v else m.get? k := by
  induction m with
  | nil =>
    by_cases h : k = a
    · simp [Snapshot.set, Snapshot.get?, h]
    · simp [Snapshot.set, Snapshot.get?, h, Ne.symm h]
  | cons p ps ih =>
    rcases p with ⟨pk, pv⟩
    by_cases hpa : pk = a
    · subst hpa
      by_cases hk : k = pk
      · subst hk
        simp [Snapshot.set, Snapshot.get?]
      · simp [Snapshot.set, Snapshot.get?, hk, Ne.symm hk]
    · by_cases hpk : pk = k
      · subst hpk
        simp [Snapshot.set, Snapshot.get?, hpa, Ne.symm hpa]
      · simp [Snapshot.set, Snapshot.get?, hpa, hpk, ih]

/-- Keys present after folding `Map.set` over rows: the prior keys plus
the rows' node ids. -/
lemma foldl_set_get?_isSome (rows : List TextRowData) (m : Snapshot) (k : String) :
    ((rows.foldl (fun m r => m.set r.nodeId (serializeRow r)) m).get? k).isSome = true ↔
      ((m.get? k).isSome = true ∨ k ∈ rows.map (fun r => r.nodeId)) := by
  induction rows generalizing m with
  | nil => simp
  | cons r rs ih =>
    rw [List.foldl_cons, ih]
    by_cases h : k = r.nodeId <;> simp [Snapshot.get?_set, h, or_assoc]

/-- The snapshot taken from a row list has exactly the rows' node ids as
keys. -/
lemma takeSnapshot_keys (rows : List TextRowData) (k : String) :
    (((takeSnapshot rows).get? k).isSome = true) ↔ k ∈ rows.map (fun r => r.nodeId) := by
  rw [takeSnapshot, foldl_set_get?_isSome]
  simp [Snapshot.get?]

def c2Fp : Fingerprint :=
  { t := "Foo", s := "Body", fs := "14", ff := "Inter Regular",
    ls := "0px", lh := "Auto" }

/-- A snapshot captured under a prior context. -/
def c2PriorSnap : Snapshot := [("old", c2Fp)]

/-- A visible FRAME container with an empty children collection: zero
visible text leaves. -/
def c2EmptyFrame : SceneNode :=
  .node { c5Data with id := "B", ntype := "FRAME" } (some [])

def c2Doc : Doc :=
  { selection := [], getNodeById := fun i => if i = "B" then some c2EmptyFrame else none,
    parentOf := fun _ => none, depth := 0, styleById := fun _ => .err }

/-- C2 counterexample: entering container "B", which has zero visible text
leaves, leaves the prior context's snapshot entry `"old"` in place —
`scanFrame` returns before `takeSnapshot` on the no-text path, so the
baseline is not replaced. -/
theorem resetScan_empty_retains_prior :
    (scanFrame c2Doc "B" c2PriorSnap true).2 = OutMsg.noText ∧
    Snapshot.get? (scanFrame c2Doc "B" c2PriorSnap true).1 "old" = some c2Fp := by
  have hB : c2Doc.getNodeById "B" = some c2EmptyFrame := by simp [c2Doc]
  have hC : c2EmptyFrame.children = some [] := rfl
  have hL : findVisibleTextNodesList ([] : List SceneNode) = [] := by
    rw [findVisibleTextNodesList.eq_def]
  constructor <;>
    simp [scanFrame, hB, hC, hL, sortVisual, Snapshot.get?, c2PriorSnap, List.find?]

/-- C2 amended: a reset-scan of a container that yields at least one
visible text row replaces the snapshot completely — the result is
independent of the prior snapshot and its key set is exactly the node ids
of the container's current visible text rows; but when the scan finds zero
visible text leaves, `scanFrame` emits "no-text" and the prior snapshot is
retained unchanged. -/
theorem resetScan_replaces_snapshot :
    (∀ doc frameId snap node cs,
      doc.getNodeById frameId = some node → node.children = some cs →
      findVisibleTextNodesList cs ≠ [] →
      ((scanFrame doc frameId snap true).1 = (scanFrame doc frameId [] true).1 ∧
       (∀ k, ((scanFrame doc frameId snap true).1.get? k).isSome = true ↔
          k ∈ (findVisibleTextNodesList cs).map (fun n => n.data.id)))) ∧
    (∀ doc frameId snap node cs,
      doc.getNodeById frameId = some node → node.children = some cs →
      findVisibleTextNodesList cs = [] →
      scanFrame doc frameId snap true = (snap, .noText)) := by
  constructor
  · intro doc frameId snap node cs hn hc hne
    have hlen : ¬ (sortVisual (findVisibleTextNodesList cs)).length = 0 := by
      simpa [sortVisual, List.length_mergeSort] using hne
    have hscan : ∀ s : Snapshot, (scanFrame doc frameId s true).1 =
        takeSnapshot (((sortVisual (findVisibleTextNodesList cs)).map
          (extractData doc.styleById)).map (fun r => { r with isModified := false })) := by
      intro s
      simp [scanFrame, hn, hc, hlen]
    refine ⟨(hscan snap).trans (hscan []).symm, ?_⟩
    intro k
    rw [hscan snap, takeSnapshot_keys]
    simp only [List.map_map]
    constructor
    · intro hk
      obtain ⟨n, hmem, hid⟩ := List.mem_map.mp hk
      exact List.mem_map.mpr ⟨n, by simpa [sortVisual] using hmem, hid⟩
    · intro hk
      obtain ⟨n, hmem, hid⟩ := List.mem_map.mp hk
      exact List.mem_map.mpr ⟨n, by simpa [sortVisual] using hmem, hid⟩
  · intro doc frameId snap node cs hn hc hz
    simp [scanFrame, hn, hc, hz, sortVisual]

/-- A visible text leaf inside the container used by the C2 witness. -/
def c2Leaf : SceneNode := .node { c5Data with id := "t5" } none

def c2FullFrame : SceneNode :=
  .node { c5Data with id := "C", ntype := "FRAME" } (some [c2Leaf])

def c2Doc2 : Doc :=
  { c2Doc with getNodeById := fun i => if i = "C" then some c2FullFrame else none }

/-- Witness for the amended C2 at a container with one visible text leaf
and a stale prior snapshot. -/
theorem resetScan_replaces_snapshot_witness :
    (scanFrame c2Doc2 "C" c2PriorSnap true).1 = (scanFrame c2Doc2 "C" [] true).1 ∧
    (∀ k, ((scanFrame c2Doc2 "C" c2PriorSnap true).1.get? k).isSome = true ↔
      k ∈ (findVisibleTextNodesList [c2Leaf]).map (fun n => n.data.id)) :=
  resetScan_replaces_snapshot.1 c2Doc2 "C" c2PriorSnap c2FullFrame [c2Leaf]
    (by simp [c2Doc2, c2Doc]) rfl
    (by simp [findVisibleTextNodesList.eq_def, findVisibleTextNodes.eq_def, c2Leaf, c5Data, SceneNode.data])

/-! ### C8 -/

/-- The sort comparator is transitive. -/
lemma visualLe_trans : ∀ a b c : SceneNode, visualLe a b → visualLe b c → visualLe a c := by
  intro a b c hab hbc
  simp only [visualLe, Bool.or_eq_true, Bool.and_eq_true, decide_eq_true_eq] at hab hbc ⊢
  omega

/-- The sort comparator is total. -/
lemma visualLe_total : ∀ a b : SceneNode, visualLe a b || visualLe b a := by
  intro a b
  simp only [visualLe, Bool.or_eq_true, Bool.and_eq_true, decide_eq_true_eq]
  omega

/-- C8: a scan of a container (reset or re-scan alike) sorts the collected
visible text leaves by ascending Y translation then ascending X
translation of the absolute transform, the sorted list is a permutation of
the collected leaves, and the "result" message lists rows in exactly that
order (as witnessed by the row ids). -/
theorem scan_rows_visual_order (doc : Doc) (frameId : String) (snap : Snapshot)
    (isNew : Bool) (node : SceneNode) (cs : List SceneNode)
    (hn : doc.getNodeById frameId = some node) (hc : node.children = some cs)
    (hne : findVisibleTextNodesList cs ≠ []) :
    (sortVisual (findVisibleTextNodesList cs)).Perm (findVisibleTextNodesList cs) ∧
    List.Pairwise
      (fun a b => a.data.atY < b.data.atY ∨
        (a.data.atY = b.data.atY ∧ a.data.atX ≤ b.data.atX))
      (sortVisual (findVisibleTextNodesList cs)) ∧
    ∃ rows, (scanFrame doc frameId snap isNew).2 = OutMsg.result rows ∧
      rows.map (fun r => r.nodeId) =
        (sortVisual (findVisibleTextNodesList cs)).map (fun n => n.data.id) := by
  have hlen : ¬ (sortVisual (findVisibleTextNodesList cs)).length = 0 := by
    simpa [sortVisual, List.length_mergeSort] using hne
  refine ⟨List.mergeSort_perm _ _, ?_, ?_⟩
  · exact (List.sorted_mergeSort visualLe_trans visualLe_total
      (findVisibleTextNodesList cs)).imp
      (by
        intro a b h
        simpa [visualLe, Bool.or_eq_true, Bool.and_eq_true, decide_eq_true_eq] using h)
  · cases isNew with
    | true =>
      refine ⟨((sortVisual (findVisibleTextNodesList cs)).map
          (extractData doc.styleById)).map (fun r => { r with isModified := false }),
        by simp [scanFrame, hn, hc, hlen], ?_⟩
      simp only [List.map_map]
      exact List.map_congr_left fun n _ => rfl
    | false =>
      refine ⟨markModified snap ((sortVisual (findVisibleTextNodesList cs)).map
          (extractData doc.styleById)),
        by simp [scanFrame, hn, hc, hlen], ?_⟩
      unfold markModified
      simp only [List.map_map]
      exact List.map_congr_left fun n _ => rfl

def c8Leaf1 : SceneNode := .node { c5Data with id := "a", atY := 20 } none

def c8Leaf2 : SceneNode := .node { c5Data with id := "b", atY := 10 } none

def c8Frame : SceneNode :=
  .node { c5Data with id := "F", ntype := "FRAME" } (some [c8Leaf1, c8Leaf2])

def c8Doc : Doc :=
  { selection := [], getNodeById := fun i => if i = "F" then some c8Frame else none,
    parentOf := fun _ => none, depth := 0, styleById := fun _ => .err }

/-- Witness for C8 at a container holding two text leaves given in
bottom-to-top order. -/
theorem scan_rows_visual_order_witness :
    (sortVisual (findVisibleTextNodesList [c8Leaf1, c8Leaf2])).Perm
      (findVisibleTextNodesList [c8Leaf1, c8Leaf2]) ∧
    List.Pairwise
      (fun a b => a.data.atY < b.data.atY ∨
        (a.data.atY = b.data.atY ∧ a.data.atX ≤ b.data.atX))
      (sortVisual (findVisibleTextNodesList [c8Leaf1, c8Leaf2])) ∧
    ∃ rows, (scanFrame c8Doc "F" [] true).2 = OutMsg.result rows ∧
      rows.map (fun r => r.nodeId) =
        (sortVisual (findVisibleTextNodesList [c8Leaf1, c8Leaf2])).map (fun n => n.data.id) :=
  scan_rows_visual_order c8Doc "F" [] true c8Frame [c8Leaf1, c8Leaf2]
    (by simp [c8Doc]) rfl
    (by simp [findVisibleTextNodesList.eq_def, findVisibleTextNodes.eq_def, c8Leaf1, c8Leaf2, c5Data, SceneNode.data])

end TextFinder
